import Mathlib

/-!
Shallow embedding of the process-supervision and event-streaming layer of
the m-courtyard desktop application
(src/app/src-tauri/src/commands/{dataset,export,inference,model}.rs).

Worker stdout is consumed line by line; each line is handed to
serde_json::from_str. We model a stdout line as the pair of its raw text
and the outcome of that parse (the parse itself is the external serde_json
library, treated as an oracle carried by the input). Process exit status,
filesystem effects and the cancellation registries are modelled with
explicit state and operation traces.
-/

/-- JSON values in the image of serde_json::Value. Numbers are modelled as
integers, which covers every payload the supervisor itself constructs or
inspects. -/
inductive Json where
  | null : Json
  | bool (b : Bool) : Json
  | num (n : Int) : Json
  | str (s : String) : Json
  | arr (xs : List Json) : Json
  | obj (kvs : List (String × Json)) : Json

/-- Key lookup in a serde_json object, first match (serde maps have unique
keys). -/
def lookupKV : List (String × Json) → String → Json
  | [], _ => .null
  | (k, v) :: rest, key => if k = key then v else lookupKV rest key

/-- serde_json's Value indexing by a string key (`event["type"]`): objects
look the key up and yield Null when it is missing; every non-object value
yields Null. -/
def Json.index (j : Json) (key : String) : Json :=
  match j with
  | .obj kvs => lookupKV kvs key
  | _ => .null

/-- serde_json's Value::as_str: Some for strings, None otherwise. -/
def Json.asStr : Json → Option String
  | .str s => some s
  | _ => none

/-- The type tag read from a parsed stdout event:
`event["type"].as_str().unwrap_or("unknown")`
(dataset.rs:75, dataset.rs:204, inference.rs:102, export.rs:110). -/
def typeField (j : Json) : String :=
  ((j.index "type").asStr).getD "unknown"

/-- One line of worker stdout: the raw text together with the result of
`serde_json::from_str::<serde_json::Value>(&line)` on it. The parse result
is an oracle input; the routing logic downstream of it is embedded from
the source. -/
structure JLine where
  raw : String
  parsed : Option Json

/-- Exit status of a reaped process, as exposed by std::process::ExitStatus
on Unix: `code` is Some for a normal exit and None when the process was
killed by a signal. -/
structure ExitStatus where
  code : Option Int

/-- ExitStatus::success(): a normal exit with code zero. -/
def ExitStatus.success (s : ExitStatus) : Bool :=
  s.code == some 0

/-- The observable fate of one spawn attempt: either the spawn call itself
failed with a rendered error, or it produced a child whose stdout lines,
collected stderr lines, and wait() result are given. -/
inductive SpawnResult where
  | err (msg : String)
  | ok (stdoutLines : List JLine) (stderrLines : List String)
      (wait : Except String ExitStatus)

/-- An emitted event: channel name and payload (tauri `app.emit`). -/
abbrev Event := String × Json

/-- Line routing shared by start_cleaning (dataset.rs:74-79) and
generate_dataset (dataset.rs:203-208): a line that parses as any JSON
value is emitted on `<domain>:<type>` with the parsed value as payload;
a line that does not parse is emitted on `<domain>:log` wrapping the raw
line. -/
def demuxLine (domain : String) (l : JLine) : List Event :=
  match l.parsed with
  | some e => [(domain ++ ":" ++ typeField e, e)]
  | none => [(domain ++ ":log", .obj [("line", .str l.raw)])]

/-- Line routing of start_inference (inference.rs:100-105): a line that
parses is emitted on `inference:<type>`; a line that does not parse is
dropped (the loop has no else branch). -/
def inferenceLine (l : JLine) : List Event :=
  match l.parsed with
  | some e => [("inference:" ++ typeField e, e)]
  | none => []

/-- serde_json::Map::insert: replaces the value of an existing key, adds
the pair otherwise. (serde's map is ordered; the single-key payloads used
in this development make the placement of a fresh key immaterial.) -/
def insertKey : List (String × Json) → String → Json → List (String × Json)
  | [], k, v => [(k, v)]
  | (k', v') :: rest, k, v =>
    if k' = k then (k, v) :: rest else (k', v') :: insertKey rest k v

/-- export.rs:114-117: the project id is injected into object payloads
before emission; non-object payloads are forwarded unchanged. -/
def injectProjectId (projectId : String) (j : Json) : Json :=
  match j with
  | .obj kvs => .obj (insertKey kvs "project_id" (.str projectId))
  | other => other

/-- Line routing of export_to_ollama (export.rs:108-120): a line that
parses is emitted on `export:<type>` with the project id injected; a line
that does not parse is dropped (no else branch). -/
def exportLine (projectId : String) (l : JLine) : List Event :=
  match l.parsed with
  | some e => [("export:" ++ typeField e, injectProjectId projectId e)]
  | none => []

/-- export.rs:103-113: whether some stdout line parsed to an event whose
type tag is "error" (sets `python_emitted_error`). -/
def pyEmittedError (lines : List JLine) : Bool :=
  lines.any fun l =>
    match l.parsed with
    | some e => typeField e == "error"
    | none => false

/-- Whether a wait() result is a clean success (Ok status with code 0). -/
def waitSuccess : Except String ExitStatus → Bool
  | .ok s => s.success
  | .error _ => false

/-- Terminal emission of start_cleaning after the stdout loop
(dataset.rs:83-96): nothing on success, `cleaning:error` on a non-zero
exit or a wait error. -/
def cleaningOutcome (wait : Except String ExitStatus) : List Event :=
  match wait with
  | .ok s =>
    if s.success then []
    else [("cleaning:error",
           .obj [("message", .str "Cleaning process exited with error")])]
  | .error e => [("cleaning:error", .obj [("message", .str e)])]

/-- The full event sequence of one start_cleaning run (dataset.rs:65-103):
spawn failure emits a single error; otherwise the stdout lines are
forwarded and the terminal classification follows. -/
def runCleaning (sp : SpawnResult) : List Event :=
  match sp with
  | .err e => [("cleaning:error", .obj [("message", .str e)])]
  | .ok outLines _ wait =>
    outLines.flatMap (demuxLine "cleaning") ++ cleaningOutcome wait

/-- A filesystem operation performed by generate_dataset, with the success
of the underlying std::fs call recorded (both call sites discard the
Result with `let _ =`). -/
inductive FsOp where
  | renameDir (src dst : String) (ok : Bool)
  | removeDirAll (p : String) (ok : Bool)

/-- Effect of one filesystem operation on the set of existing directory
paths: a successful rename moves the path, a successful recursive removal
deletes it, a failed operation leaves the filesystem unchanged. -/
def applyFsOp (fs : List String) : FsOp → List String
  | .renameDir src dst ok => if ok then dst :: fs.filter (· != src) else fs
  | .removeDirAll p ok => if ok then fs.filter (· != p) else fs

def applyFsOps (fs : List String) (ops : List FsOp) : List String :=
  ops.foldl applyFsOp fs

/-- Terminal step of generate_dataset after the stdout loop
(dataset.rs:215-251). `root` is the dataset root, `ts` the staging
timestamp allocated before the run, `finalTs` the completion timestamp.
On success the staging directory `root/ts` is renamed to `root/finalTs`
and `dataset:version` carries the final timestamp if the rename succeeded,
the staging timestamp otherwise. On a non-zero exit the staging directory
is recursively removed and exit code 143, or an absent code (defaulted to
-1 by `status.code().unwrap_or(-1)`), yields `dataset:stopped`, any other
code `dataset:error`. A wait error also removes the staging directory and
emits `dataset:error`. -/
def generateOutcome (root ts finalTs : String) (renameOk removeOk : Bool)
    (wait : Except String ExitStatus) : List FsOp × List Event :=
  match wait with
  | .ok s =>
    if s.success then
      let versionId := if renameOk then finalTs else ts
      ([.renameDir (root ++ "/" ++ ts) (root ++ "/" ++ finalTs) renameOk],
       [("dataset:version", .obj [("version", .str versionId)])])
    else
      let code := s.code.getD (-1)
      ([.removeDirAll (root ++ "/" ++ ts) removeOk],
       if code = 143 ∨ code = -1 then
         [("dataset:stopped",
           .obj [("message",
                  .str "Generation stopped, incomplete data cleaned up")])]
       else
         [("dataset:error",
           .obj [("message",
                  .str ("Generation exited with code " ++ toString code))])])
  | .error e =>
    ([.removeDirAll (root ++ "/" ++ ts) removeOk],
     [("dataset:error", .obj [("message", .str e)])])

/-- The full effect of one generate_dataset run after spawn
(dataset.rs:190-259): the filesystem operations performed and the events
emitted, in order. A spawn failure removes the staging directory and emits
one `dataset:error`. -/
def runGenerate (root ts finalTs : String) (renameOk removeOk : Bool)
    (sp : SpawnResult) : List FsOp × List Event :=
  match sp with
  | .err e =>
    ([.removeDirAll (root ++ "/" ++ ts) removeOk],
     [("dataset:error", .obj [("message", .str e)])])
  | .ok outLines _ wait =>
    let r := generateOutcome root ts finalTs renameOk removeOk wait
    (r.1, outLines.flatMap (demuxLine "dataset") ++ r.2)

/-- Terminal emission of start_inference after the stdout loop
(inference.rs:108-130): nothing on success; on a non-zero exit the
collected stderr lines are joined and used as the message unless the join
is empty, in which case a fixed fallback is used; a wait error emits its
rendered message. -/
def inferenceOutcome (stderrLines : List String)
    (wait : Except String ExitStatus) : List Event :=
  match wait with
  | .ok s =>
    if s.success then []
    else
      let joined := "\n".intercalate stderrLines
      let msg := if joined = "" then "Inference process failed" else joined
      [("inference:error", .obj [("message", .str msg)])]
  | .error e => [("inference:error", .obj [("message", .str e)])]

/-- The full event sequence of one start_inference run
(inference.rs:74-137). -/
def runInference (sp : SpawnResult) : List Event :=
  match sp with
  | .err e => [("inference:error", .obj [("message", .str e)])]
  | .ok outLines errLines wait =>
    outLines.flatMap inferenceLine ++ inferenceOutcome errLines wait

/-- Composition of export.rs stderr collection and re-splitting: the
BufReader lines collected from stderr contain no newline, the code joins
them with "\n" (export.rs:128) and re-splits the joined text with
str::lines (export.rs:135). On newline-free segments that round trip
drops exactly one trailing empty segment. -/
def relines (ss : List String) : List String :=
  if ss.getLast? = some "" then ss.dropLast else ss

/-- The generic export failure message (export.rs:132-138): the fixed
fallback when the joined stderr text is empty, otherwise the last eight
stderr lines re-joined with newlines
(`lines.into_iter().rev().take(8)...rev()`). -/
def exportErrMsg (stderrLines : List String) : String :=
  let text := "\n".intercalate stderrLines
  if text = "" then "Export process failed (no details available)"
  else "\n".intercalate (((relines stderrLines).reverse.take 8).reverse)

/-- Terminal step of export_to_ollama after the stdout loop
(export.rs:123-151): a generic `export:error` is emitted only when the
exit was non-zero and the worker did not itself emit an error-typed event;
a wait error always emits `export:error` with its rendered message. -/
def exportOutcome (projectId : String) (pyErr : Bool)
    (stderrLines : List String) (wait : Except String ExitStatus) :
    List Event :=
  match wait with
  | .ok s =>
    if !s.success && !pyErr then
      [("export:error",
        .obj [("message", .str (exportErrMsg stderrLines)),
              ("project_id", .str projectId)])]
    else []
  | .error e =>
    [("export:error",
      .obj [("message", .str e), ("project_id", .str projectId)])]

/-- The full event sequence of one export_to_ollama run
(export.rs:63-160). -/
def runExport (projectId : String) (sp : SpawnResult) : List Event :=
  match sp with
  | .err e =>
    [("export:error",
      .obj [("message", .str e), ("project_id", .str projectId)])]
  | .ok outLines errLines wait =>
    outLines.flatMap (exportLine projectId) ++
      exportOutcome projectId (pyEmittedError outLines) errLines wait

/-- A SIGTERM delivery: `group pid` is `libc::kill(-(pid as i32), SIGTERM)`
(the process group), `direct pid` is `libc::kill(pid as i32, SIGTERM)`. -/
inductive Signal where
  | group (pid : Nat)
  | direct (pid : Nat)
  deriving DecidableEq

/-- Observable effect of a stop command: the registry state it leaves
behind, the signals it sent, and its returned Result. -/
structure StopResult (σ : Type) where
  state : σ
  signals : List Signal
  result : Except String Unit

/-- stop_generation (dataset.rs:8-21). The primary slot is the
GENERATION_PID atomic, value 0 meaning empty. The code swaps 0 into the
slot; a previously empty slot yields an error, otherwise SIGTERM is sent
to the process group and then to the process itself. -/
def stopGeneration (slot : Nat) : StopResult Nat :=
  let pid := slot
  if pid = 0 then
    { state := 0, signals := [], result := .error "No generation process running" }
  else
    { state := 0, signals := [.group pid, .direct pid], result := .ok () }

/-- HashMap::get on the DOWNLOAD_PROCESSES map (unique keys). -/
def lookupPid : List (String × Nat) → String → Option Nat
  | [], _ => none
  | (k, pid) :: rest, key => if k = key then some pid else lookupPid rest key

/-- stop_download (model.rs:130-141): a tracked repo id gets one direct
SIGTERM and the map entry is left in place (it is removed later by the
supervising task after wait, model.rs:107-109); an untracked repo id is an
error and nothing changes. -/
def stopDownload (map : List (String × Nat)) (repoId : String) :
    StopResult (List (String × Nat)) :=
  match lookupPid map repoId with
  | some pid => { state := map, signals := [.direct pid], result := .ok () }
  | none =>
    { state := map, signals := [],
      result := .error "No active download found for this model" }

/-- Byte-wise lexicographic comparison of Rust's Ord for String, at the
character level (identifiers compared in this development are ASCII, where
byte order and code-point order coincide). -/
def ltChars : List Char → List Char → Bool
  | [], [] => false
  | [], _ :: _ => true
  | _ :: _, [] => false
  | x :: xs, y :: ys =>
    if x < y then true
    else if y < x then false
    else ltChars xs ys

/-- Rust `a < b` on String (strict lexicographic order on the bytes). -/
def rustStrLt (a b : String) : Bool :=
  ltChars a.data b.data

/-- One entry read from the dataset root by read_dir, together with the
filesystem facts list_dataset_versions reads about it
(dataset.rs:294-322). -/
structure DirEntry where
  name : String
  isDir : Bool
  hasTrain : Bool
  trainCount : Nat
  validCount : Nat
  trainSize : Nat
  validSize : Nat

/-- The filesystem facts about the legacy flat layout
(dataset.rs:325-341): whether `root/train.jsonl` exists, the counts and
sizes, and the display string derived from the file's mtime. -/
structure LegacyData where
  present : Bool
  trainCount : Nat
  validCount : Nat
  trainSize : Nat
  validSize : Nat
  created : String

/-- Mirror of the DatasetVersionInfo struct (dataset.rs:266-275). -/
structure DatasetVersionInfo where
  version : String
  path : String
  trainCount : Nat
  validCount : Nat
  trainSize : Nat
  validSize : Nat
  created : String

/-- parse_timestamp_display (dataset.rs:423-433): "20260211_103031"
becomes "2026-02-11 10:30"; anything shorter than 15 characters is
returned unchanged. Rust indexes bytes; the identifiers involved are
ASCII, where byte and character positions coincide. -/
def parseTimestampDisplay (ts : String) : String :=
  if ts.length ≥ 15 then
    let cs := ts.data
    String.mk ((cs.take 4) ++ '-' :: ((cs.drop 4).take 2) ++ '-' ::
      ((cs.drop 6).take 2) ++ ' ' :: ((cs.drop 9).take 2) ++ ':' ::
      ((cs.drop 11).take 2))
  else ts

/-- Stable insertion into a list already sorted by strictly descending
version: the element moves past entries with strictly greater version and
lands before the first entry whose version is less than or equal to its
own. Together with `sortByVersionDesc` this is the stable sort that
`versions.sort_by(|a, b| b.version.cmp(&a.version))` performs
(dataset.rs:355). -/
def sortInsert (x : DatasetVersionInfo) :
    List DatasetVersionInfo → List DatasetVersionInfo
  | [] => [x]
  | y :: ys =>
    if rustStrLt x.version y.version then y :: sortInsert x ys
    else x :: y :: ys

/-- Stable sort by version descending (dataset.rs:355). -/
def sortByVersionDesc : List DatasetVersionInfo → List DatasetVersionInfo
  | [] => []
  | x :: xs => sortInsert x (sortByVersionDesc xs)

/-- list_dataset_versions (dataset.rs:279-357) over the filesystem facts
it reads: an absent dataset root yields the empty list; otherwise every
read_dir entry that is a directory containing train.jsonl becomes one
entry, the legacy flat layout (train.jsonl directly under the root)
appends one synthetic entry with identifier "legacy", and the result is
sorted by version descending. -/
def listDatasetVersions (rootExists : Bool) (rootPath : String)
    (entries : List DirEntry) (legacy : LegacyData) :
    List DatasetVersionInfo :=
  if !rootExists then []
  else
    let dirVersions :=
      (entries.filter fun e => e.isDir && e.hasTrain).map fun e =>
        { version := e.name
          path := rootPath ++ "/" ++ e.name
          trainCount := e.trainCount
          validCount := e.validCount
          trainSize := e.trainSize
          validSize := e.validSize
          created := parseTimestampDisplay e.name }
    let withLegacy :=
      if legacy.present then
        dirVersions ++
          [{ version := "legacy"
             path := rootPath
             trainCount := legacy.trainCount
             validCount := legacy.validCount
             trainSize := legacy.trainSize
             validSize := legacy.validSize
             created := legacy.created }]
      else dirVersions
    sortByVersionDesc withLegacy

/-- Path resolution of get_dataset_preview (dataset.rs:383-396): an
explicit non-legacy version reads `root/<version>/train.jsonl`; the
"legacy" version or no version prefers the flat `root/train.jsonl` and
falls back to the newest versioned train.jsonl (`latestTrain`, the result
of find_latest_train_path), which may be absent. -/
def previewPath (rootPath : String) (version : Option String)
    (legacyExists : Bool) (latestTrain : Option String) : Option String :=
  match version with
  | some v =>
    if v = "legacy" then
      if legacyExists then some (rootPath ++ "/train.jsonl") else latestTrain
    else some (rootPath ++ "/" ++ v ++ "/train.jsonl")
  | none =>
    if legacyExists then some (rootPath ++ "/train.jsonl") else latestTrain

/-- The preview loop of get_dataset_preview (dataset.rs:405-411): walk the
file's lines with their index, stop at index 50, keep the values of the
lines that parse and skip the rest (the skipped lines still advance the
index). -/
def previewLoop (i : Nat) : List JLine → List Json
  | [] => []
  | l :: ls =>
    if i ≥ 50 then []
    else
      match l.parsed with
      | some v => v :: previewLoop (i + 1) ls
      | none => previewLoop (i + 1) ls

/-- get_dataset_preview (dataset.rs:374-414) over the filesystem facts it
reads: `trainExists` tells whether a path exists, `readFile` is
read_to_string followed by the line split and the per-line parse oracle.
No resolvable path is an error; an absent train.jsonl is Ok with an empty
list; a read error is an error; otherwise the preview loop runs. -/
def getDatasetPreview (rootPath : String) (version : Option String)
    (legacyExists : Bool) (latestTrain : Option String)
    (trainExists : String → Bool)
    (readFile : String → Except String (List JLine)) :
    Except String (List Json) :=
  match previewPath rootPath version legacyExists latestTrain with
  | none => .error "No dataset found"
  | some p =>
    if !trainExists p then .ok []
    else
      match readFile p with
      | .error e => .error ("Failed to read train.jsonl: " ++ e)
      | .ok ls => .ok (previewLoop 0 ls)

/-! Order lemmas for the byte-wise lexicographic comparison, and
structural lemmas for the stable sort and the preview loop. -/

theorem ltChars_irrefl : ∀ a, ltChars a a = false
  | [] => rfl
  | x :: xs => by
    simp [ltChars, lt_irrefl, ltChars_irrefl xs]

theorem ltChars_asymm : ∀ a b, ltChars a b = true → ltChars b a = false
  | [], [] => by simp [ltChars]
  | [], _ :: _ => by simp [ltChars]
  | _ :: _, [] => by simp [ltChars]
  | x :: xs, y :: ys => by
    rcases lt_trichotomy x y with h | h | h
    · simp [ltChars, h, lt_asymm h]
    · subst h
      simp only [ltChars, lt_irrefl, if_false]
      exact ltChars_asymm xs ys
    · simp [ltChars, h, lt_asymm h]

theorem ltChars_connex : ∀ a b, ltChars a b = false → ltChars b a = false →
    a = b
  | [], [] => by simp
  | [], _ :: _ => by simp [ltChars]
  | _ :: _, [] => by simp [ltChars]
  | x :: xs, y :: ys => by
    rcases lt_trichotomy x y with h | h | h
    · simp [ltChars, h]
    · subst h
      simp only [ltChars, lt_irrefl, if_false]
      intro h1 h2
      rw [ltChars_connex xs ys h1 h2]
    · simp [ltChars, h]

theorem ltChars_trans : ∀ a b c, ltChars a b = true → ltChars b c = true →
    ltChars a c = true
  | [], [], _ => by simp [ltChars]
  | [], _ :: _, [] => by simp [ltChars]
  | [], _ :: _, _ :: _ => by simp [ltChars]
  | _ :: _, [], _ => by simp [ltChars]
  | _ :: _, _ :: _, [] => by simp [ltChars]
  | x :: xs, y :: ys, z :: zs => by
    rcases lt_trichotomy x y with hxy | hxy | hxy <;>
      rcases lt_trichotomy y z with hyz | hyz | hyz
    · simp [ltChars, hxy, hyz, lt_trans hxy hyz, lt_asymm (lt_trans hxy hyz)]
    · subst hyz
      simp [ltChars, hxy, lt_asymm hxy]
    · rcases lt_trichotomy x z with hxz | hxz | hxz
      · simp [ltChars, hyz, lt_asymm hyz]
      · simp [ltChars, hyz, lt_asymm hyz]
      · simp [ltChars, hyz, lt_asymm hyz]
    · subst hxy
      simp [ltChars, hyz, lt_asymm hyz]
    · subst hxy
      subst hyz
      simp only [ltChars, lt_irrefl, if_false]
      exact ltChars_trans xs ys zs
    · subst hxy
      simp [ltChars, hyz, lt_asymm hyz]
    · simp [ltChars, hxy, lt_asymm hxy]
    · subst hyz
      simp [ltChars, hxy, lt_asymm hxy]
    · simp [ltChars, hxy, lt_asymm hxy]

theorem ltChars_false_trans (a b c : List Char) (hab : ltChars a b = false)
    (hbc : ltChars b c = false) : ltChars a c = false := by
  cases hac : ltChars a c with
  | false => rfl
  | true =>
    cases hba : ltChars b a with
    | true =>
      have h := ltChars_trans b a c hba hac
      rw [hbc] at h
      exact h.symm
    | false =>
      have h := ltChars_connex a b hab hba
      subst h
      rw [hbc] at hac
      exact hac.symm

theorem rustStrLt_irrefl (a : String) : rustStrLt a a = false :=
  ltChars_irrefl a.data

theorem rustStrLt_asymm (a b : String) (h : rustStrLt a b = true) :
    rustStrLt b a = false :=
  ltChars_asymm a.data b.data h

theorem rustStrLt_false_trans (a b c : String) (hab : rustStrLt a b = false)
    (hbc : rustStrLt b c = false) : rustStrLt a c = false :=
  ltChars_false_trans a.data b.data c.data hab hbc

theorem rustStrLt_ne (a b : String) (h : rustStrLt a b = true) : a ≠ b := by
  intro he
  subst he
  rw [rustStrLt_irrefl] at h
  exact Bool.false_ne_true h

/-- Membership is preserved by the stable insertion. -/
theorem sortInsert_mem (x : DatasetVersionInfo) :
    ∀ l y, y ∈ sortInsert x l ↔ y = x ∨ y ∈ l
  | [], y => by simp [sortInsert]
  | z :: zs, y => by
    simp only [sortInsert]
    split
    · rw [List.mem_cons, sortInsert_mem x zs y]
      simp only [List.mem_cons]
      tauto
    · simp only [List.mem_cons]

theorem sortByVersionDesc_mem :
    ∀ l y, y ∈ sortByVersionDesc l ↔ y ∈ l
  | [], y => by simp [sortByVersionDesc]
  | x :: xs, y => by
    simp only [sortByVersionDesc]
    rw [sortInsert_mem, sortByVersionDesc_mem xs y]
    simp only [List.mem_cons]

/-- Predicate counts are preserved by the stable insertion. -/
theorem sortInsert_countP (p : DatasetVersionInfo → Bool)
    (x : DatasetVersionInfo) :
    ∀ l, (sortInsert x l).countP p
      = (if p x then 1 else 0) + l.countP p
  | [] => by simp [sortInsert, List.countP_cons]
  | z :: zs => by
    simp only [sortInsert]
    split
    · rw [List.countP_cons, sortInsert_countP p x zs, List.countP_cons]
      omega
    · rw [List.countP_cons, List.countP_cons]
      omega

theorem sortByVersionDesc_countP (p : DatasetVersionInfo → Bool) :
    ∀ l, (sortByVersionDesc l).countP p = l.countP p
  | [] => rfl
  | x :: xs => by
    simp only [sortByVersionDesc]
    rw [sortInsert_countP, sortByVersionDesc_countP p xs, List.countP_cons]
    omega

/-- The pairwise relation of a version-descending list: no earlier entry
has a strictly smaller version than a later one. -/
def VersionDesc (a b : DatasetVersionInfo) : Prop :=
  rustStrLt a.version b.version = false

/-- Inserting into a version-descending list keeps it version-descending. -/
theorem sortInsert_pairwise (x : DatasetVersionInfo) :
    ∀ l, l.Pairwise VersionDesc → (sortInsert x l).Pairwise VersionDesc
  | [], _ => by simp [sortInsert, List.pairwise_cons]
  | z :: zs, h => by
    rw [List.pairwise_cons] at h
    obtain ⟨hz, hzs⟩ := h
    simp only [sortInsert]
    split
    · rename_i hlt
      rw [List.pairwise_cons]
      constructor
      · intro y hy
        rw [sortInsert_mem] at hy
        rcases hy with rfl | hy
        · exact rustStrLt_asymm _ _ hlt
        · exact hz y hy
      · exact sortInsert_pairwise x zs hzs
    · rename_i hnlt
      have hxz : VersionDesc x z := Bool.eq_false_iff.mpr hnlt
      rw [List.pairwise_cons]
      constructor
      · intro y hy
        rcases List.mem_cons.mp hy with rfl | hy
        · exact hxz
        · exact rustStrLt_false_trans _ _ _ hxz (hz y hy)
      · rw [List.pairwise_cons]
        exact ⟨hz, hzs⟩

theorem sortByVersionDesc_pairwise :
    ∀ l, (sortByVersionDesc l).Pairwise VersionDesc
  | [] => List.Pairwise.nil
  | x :: xs => sortInsert_pairwise x _ (sortByVersionDesc_pairwise xs)

/-- The preview loop keeps the parse results of the lines inside the
50-line window, starting with `50 - i` remaining slots. -/
theorem previewLoop_eq :
    ∀ (ls : List JLine) (i : Nat),
      previewLoop i ls = (ls.take (50 - i)).filterMap JLine.parsed
  | [], i => by simp [previewLoop]
  | l :: ls, i => by
    by_cases h : i ≥ 50
    · have : 50 - i = 0 := by omega
      simp [previewLoop, h, this]
    · have h1 : 50 - i = (50 - (i + 1)) + 1 := by omega
      rw [previewLoop, if_neg h, h1]
      rw [List.take_succ_cons, List.filterMap_cons]
      cases hp : l.parsed with
      | none => rw [previewLoop_eq ls (i + 1)]
      | some v => rw [previewLoop_eq ls (i + 1)]

/-! The claims. -/

/-- C1 counterexample: a start_cleaning run that spawns, produces no
stdout, and exits 0 emits no event at all — in particular no terminal
success event — contradicting "exactly one terminal outcome event is
emitted ... never zero". Only generate_dataset has a terminal success
event; the other commands emit a terminal event only on failure. -/
theorem C1_counterexample :
    runCleaning (.ok [] [] (.ok ⟨some 0⟩)) = [] := rfl

/-- C1 (amended): every supervisor-synthesized terminal event is emitted
after the stdout stream is fully drained (each run is the forwarded
stdout events followed by the outcome events), and the number of
synthesized terminal events per run is: exactly one for generate_dataset
on every path; for start_cleaning and start_inference exactly one when
the run did not exit 0 and none when it did; for export_to_ollama
exactly one when the run did not exit 0 and the worker did not itself
emit an error-typed event (a wait error always yields one), and none
otherwise. Worker-forwarded stdout events may additionally appear on
terminal-looking channels during streaming. -/
theorem C1_terminal_events (root ts finalTs m projectId : String)
    (renameOk removeOk : Bool) (outLines : List JLine)
    (errLines : List String) (wait : Except String ExitStatus) :
    ((runGenerate root ts finalTs renameOk removeOk
        (.ok outLines errLines wait)).2
      = outLines.flatMap (demuxLine "dataset")
          ++ (generateOutcome root ts finalTs renameOk removeOk wait).2
    ∧ (generateOutcome root ts finalTs renameOk removeOk wait).2.length = 1
    ∧ (runGenerate root ts finalTs renameOk removeOk (.err m)).2.length = 1)
    ∧ (runCleaning (.ok outLines errLines wait)
        = outLines.flatMap (demuxLine "cleaning") ++ cleaningOutcome wait
    ∧ (cleaningOutcome wait).length = (if waitSuccess wait then 0 else 1)
    ∧ (runCleaning (.err m)).length = 1)
    ∧ (runInference (.ok outLines errLines wait)
        = outLines.flatMap inferenceLine ++ inferenceOutcome errLines wait
    ∧ (inferenceOutcome errLines wait).length
        = (if waitSuccess wait then 0 else 1)
    ∧ (runInference (.err m)).length = 1)
    ∧ (runExport projectId (.ok outLines errLines wait)
        = outLines.flatMap (exportLine projectId)
            ++ exportOutcome projectId (pyEmittedError outLines)
                errLines wait
    ∧ (exportOutcome projectId (pyEmittedError outLines) errLines
          wait).length
        = (match wait with
           | .ok s => if s.success || pyEmittedError outLines then 0 else 1
           | .error _ => 1)
    ∧ (runExport projectId (.err m)).length = 1) := by
  refine ⟨⟨rfl, ?_, rfl⟩, ⟨rfl, ?_, rfl⟩, ⟨rfl, ?_, rfl⟩, ⟨rfl, ?_, rfl⟩⟩
  · cases wait with
    | ok s =>
      by_cases hs : s.success = true
      · simp [generateOutcome, hs]
      · simp only [generateOutcome, if_neg hs]
        split <;> rfl
    | error e => rfl
  · cases wait with
    | ok s =>
      by_cases hs : s.success = true <;>
        simp [cleaningOutcome, waitSuccess, hs]
    | error e => rfl
  · cases wait with
    | ok s =>
      by_cases hs : s.success = true <;>
        simp [inferenceOutcome, waitSuccess, hs]
    | error e => rfl
  · cases wait with
    | ok s =>
      by_cases hs : s.success = true <;>
        by_cases hp : pyEmittedError outLines = true <;>
          simp [exportOutcome, hs, hp]
    | error e => rfl

/-- C2 counterexample: start_inference drops a stdout line that does not
parse as JSON instead of emitting it on `inference:log` (and so does
export_to_ollama), and a JSON scalar line such as `42` (which serde_json
parses successfully as a number) is routed by generate_dataset to
`dataset:unknown`, not to `dataset:log`. -/
theorem C2_counterexample :
    runInference (.ok [⟨"loading model weights", none⟩] [] (.ok ⟨some 0⟩))
        = []
    ∧ (demuxLine "dataset" ⟨"42", some (.num 42)⟩).map Prod.fst
        = ["dataset:unknown"]
    ∧ "dataset:unknown" ≠ "dataset:log" := by
  refine ⟨rfl, rfl, by decide⟩

/-- C2 (amended): in generate_dataset and start_cleaning, a line that
parses as any JSON value — object or not — is emitted on
`<domain>:<type>`, where the type is the object's string `type` field and
defaults to "unknown" when the field is absent, non-string, or the value
is not an object (so JSON scalars go to `<domain>:unknown`); a line that
does not parse is emitted on `<domain>:log` carrying the original text.
start_inference and export_to_ollama instead drop lines that do not
parse. -/
theorem C2_line_routing (domain t projectId : String) (e : Json)
    (kvs : List (String × Json)) (l : JLine) (n : Int) :
    (l.parsed = some e →
      demuxLine domain l = [(domain ++ ":" ++ typeField e, e)])
    ∧ (l.parsed = none →
      demuxLine domain l = [(domain ++ ":log", .obj [("line", .str l.raw)])])
    ∧ (lookupKV kvs "type" = .str t → typeField (.obj kvs) = t)
    ∧ (lookupKV kvs "type" = .null → typeField (.obj kvs) = "unknown")
    ∧ typeField (.num n) = "unknown"
    ∧ (l.parsed = none → inferenceLine l = [])
    ∧ (l.parsed = none → exportLine projectId l = []) := by
  refine ⟨?_, ?_, ?_, ?_, rfl, ?_, ?_⟩
  · intro h
    simp [demuxLine, h]
  · intro h
    simp [demuxLine, h]
  · intro h
    simp [typeField, Json.index, h, Json.asStr]
  · intro h
    simp [typeField, Json.index, h, Json.asStr]
  · intro h
    simp [inferenceLine, h]
  · intro h
    simp [exportLine, h]

/-- C2 witness: the four routing behaviors at concrete lines. -/
theorem C2_witness :
    demuxLine "dataset"
        ⟨"\x7b\"type\":\"progress\"\x7d",
         some (.obj [("type", .str "progress")])⟩
      = [("dataset:progress", .obj [("type", .str "progress")])]
    ∧ demuxLine "cleaning" ⟨"Epoch 1/3 done", none⟩
      = [("cleaning:log", .obj [("line", .str "Epoch 1/3 done")])]
    ∧ inferenceLine ⟨"loading weights", none⟩ = []
    ∧ exportLine "p1" ⟨"converting", none⟩ = []
    ∧ typeField (.obj [("type", .str "progress")]) = "progress"
    ∧ typeField (.obj [("count", .num 3)]) = "unknown"
    ∧ typeField (.num 42) = "unknown" := by
  refine ⟨?_, ?_, ?_, ?_, ?_, ?_, ?_⟩
  · exact (C2_line_routing "dataset" "progress" "p1"
      (.obj [("type", .str "progress")]) [] ⟨"\x7b\"type\":\"progress\"\x7d",
        some (.obj [("type", .str "progress")])⟩ 0).1 rfl
  · exact (C2_line_routing "cleaning" "t" "p1" .null []
      ⟨"Epoch 1/3 done", none⟩ 0).2.1 rfl
  · exact (C2_line_routing "inference" "t" "p1" .null []
      ⟨"loading weights", none⟩ 0).2.2.2.2.2.1 rfl
  · exact (C2_line_routing "export" "t" "p1" .null []
      ⟨"converting", none⟩ 0).2.2.2.2.2.2 rfl
  · exact (C2_line_routing "dataset" "progress" "p1" .null
      [("type", .str "progress")] ⟨"x", none⟩ 0).2.2.1 rfl
  · exact (C2_line_routing "dataset" "t" "p1" .null
      [("count", .num 3)] ⟨"x", none⟩ 0).2.2.2.1 rfl
  · exact (C2_line_routing "dataset" "t" "p1" .null [] ⟨"x", none⟩
      42).2.2.2.2.1

/-- C3: generate_dataset exit classification — code 0 yields a
`dataset:version` event, code 143 (128+SIGTERM) or an absent exit code
(death by signal, defaulted to -1) yields `dataset:stopped`, and any
other non-negative, non-zero code yields `dataset:error` carrying the
code in its message. -/
theorem C3_exit_classification (root ts finalTs : String)
    (renameOk removeOk : Bool) (c : Int)
    (h0 : 0 ≤ c) (h1 : c ≠ 0) (h2 : c ≠ 143) :
    ((generateOutcome root ts finalTs renameOk removeOk
        (.ok ⟨some 0⟩)).2.map Prod.fst = ["dataset:version"])
    ∧ ((generateOutcome root ts finalTs renameOk removeOk
        (.ok ⟨some 143⟩)).2
      = [("dataset:stopped",
          .obj [("message",
                 .str "Generation stopped, incomplete data cleaned up")])])
    ∧ ((generateOutcome root ts finalTs renameOk removeOk (.ok ⟨none⟩)).2
      = [("dataset:stopped",
          .obj [("message",
                 .str "Generation stopped, incomplete data cleaned up")])])
    ∧ ((generateOutcome root ts finalTs renameOk removeOk
        (.ok ⟨some c⟩)).2
      = [("dataset:error",
          .obj [("message",
                 .str ("Generation exited with code " ++ toString c))])]) := by
  refine ⟨rfl, rfl, rfl, ?_⟩
  have hs : (ExitStatus.mk (some c)).success = false := by
    simp [ExitStatus.success]
    exact h1
  simp only [generateOutcome, hs, Bool.false_eq_true, if_false,
    Option.getD_some]
  rw [if_neg (show ¬ (c = 143 ∨ c = -1) by omega)]

/-- C3 witness: the classification at concrete exit codes, here code 7
for the failure case. -/
theorem C3_witness :
    ((generateOutcome "dataset" "a" "b" true true
        (.ok ⟨some 0⟩)).2.map Prod.fst = ["dataset:version"])
    ∧ ((generateOutcome "dataset" "a" "b" true true (.ok ⟨some 143⟩)).2
      = [("dataset:stopped",
          .obj [("message",
                 .str "Generation stopped, incomplete data cleaned up")])])
    ∧ ((generateOutcome "dataset" "a" "b" true true (.ok ⟨none⟩)).2
      = [("dataset:stopped",
          .obj [("message",
                 .str "Generation stopped, incomplete data cleaned up")])])
    ∧ ((generateOutcome "dataset" "a" "b" true true (.ok ⟨some 7⟩)).2
      = [("dataset:error",
          .obj [("message",
                 .str ("Generation exited with code " ++ toString (7 : Int)))])]) :=
  C3_exit_classification "dataset" "a" "b" true true 7
    (by decide) (by decide) (by decide)

/-- C4 counterexample: stop_download on a tracked repo id sends only a
direct SIGTERM to the process id — it does not signal the process group
first — and leaves the registry entry in place rather than clearing it,
contradicting the claim for stop_download. -/
theorem C4_counterexample :
    stopDownload [("mlx-community/test-model", 4242)]
        "mlx-community/test-model"
      = { state := [("mlx-community/test-model", 4242)],
          signals := [.direct 4242], result := .ok () }
    ∧ [Signal.direct 4242] ≠ [Signal.group 4242, Signal.direct 4242] := by
  refine ⟨rfl, by decide⟩

/-- C4 (amended): stop_generation signals the process group first, then
the process id, and clears the primary slot regardless of signal
delivery; stop_download sends only a direct SIGTERM to the tracked
process id and leaves the registry entry unchanged (it is removed later
by the supervising task after the process is reaped). -/
theorem C4_cancel_delivery (slot : Nat) (map : List (String × Nat))
    (repoId : String) (pid : Nat)
    (hs : slot ≠ 0) (hm : lookupPid map repoId = some pid) :
    stopGeneration slot
      = { state := 0, signals := [.group slot, .direct slot],
          result := .ok () }
    ∧ stopDownload map repoId
      = { state := map, signals := [.direct pid], result := .ok () } := by
  constructor
  · simp [stopGeneration, hs]
  · simp [stopDownload, hm]

/-- C4 witness: concrete registries for both stop commands. -/
theorem C4_witness :
    stopGeneration 91
      = { state := 0, signals := [.group 91, .direct 91], result := .ok () }
    ∧ stopDownload [("mlx-community/other", 12)] "mlx-community/other"
      = { state := [("mlx-community/other", 12)],
          signals := [.direct 12], result := .ok () } :=
  C4_cancel_delivery 91 [("mlx-community/other", 12)] "mlx-community/other"
    12 (by decide) rfl

/-- C7: a cancel request with no registered process — stop_generation on
an empty primary slot, stop_download on an untracked repo id — returns an
explicit error result, sends no signal, and leaves the registry state
unchanged. -/
theorem C7_cancel_miss (map : List (String × Nat)) (repoId : String)
    (hm : lookupPid map repoId = none) :
    stopGeneration 0
      = { state := 0, signals := [],
          result := .error "No generation process running" }
    ∧ stopDownload map repoId
      = { state := map, signals := [],
          result := .error "No active download found for this model" } := by
  constructor
  · rfl
  · simp [stopDownload, hm]

/-- C7 witness: an untracked repo id against a registry tracking a
different one. -/
theorem C7_witness :
    stopGeneration 0
      = { state := 0, signals := [],
          result := .error "No generation process running" }
    ∧ stopDownload [("mlx-community/other", 12)] "mlx-community/missing"
      = { state := [("mlx-community/other", 12)], signals := [],
          result := .error "No active download found for this model" } :=
  C7_cancel_miss [("mlx-community/other", 12)] "mlx-community/missing" rfl

/-- C5: on a successful generate_dataset exit, the staging directory
`root/ts` is renamed to `root/finalTs`: when the rename succeeds the
directory exists at the new path and no longer at the staging path, and
the `dataset:version` event carries the new identifier; when the rename
fails the filesystem is unchanged (the staging path remains) and the
event carries the original staging identifier. -/
theorem C5_promote_round_trip (root ts finalTs : String)
    (removeOk : Bool) (fs : List String)
    (hmem : (root ++ "/" ++ ts) ∈ fs)
    (hne : (root ++ "/" ++ ts) ≠ (root ++ "/" ++ finalTs)) :
    ((root ++ "/" ++ finalTs) ∈ applyFsOps fs
        (generateOutcome root ts finalTs true removeOk (.ok ⟨some 0⟩)).1
    ∧ (root ++ "/" ++ ts) ∉ applyFsOps fs
        (generateOutcome root ts finalTs true removeOk (.ok ⟨some 0⟩)).1
    ∧ (generateOutcome root ts finalTs true removeOk (.ok ⟨some 0⟩)).2
        = [("dataset:version", .obj [("version", .str finalTs)])])
    ∧ (applyFsOps fs
        (generateOutcome root ts finalTs false removeOk (.ok ⟨some 0⟩)).1
          = fs
    ∧ (root ++ "/" ++ ts) ∈ applyFsOps fs
        (generateOutcome root ts finalTs false removeOk (.ok ⟨some 0⟩)).1
    ∧ (generateOutcome root ts finalTs false removeOk (.ok ⟨some 0⟩)).2
        = [("dataset:version", .obj [("version", .str ts)])]) := by
  have h1 : applyFsOps fs
      (generateOutcome root ts finalTs true removeOk (.ok ⟨some 0⟩)).1
      = (root ++ "/" ++ finalTs)
          :: fs.filter (· != (root ++ "/" ++ ts)) := rfl
  have h2 : applyFsOps fs
      (generateOutcome root ts finalTs false removeOk (.ok ⟨some 0⟩)).1
      = fs := rfl
  refine ⟨⟨?_, ?_, rfl⟩, ⟨h2, ?_, rfl⟩⟩
  · rw [h1]
    exact List.mem_cons_self _ _
  · rw [h1]
    intro h
    rcases List.mem_cons.mp h with heq | hmf
    · exact hne heq
    · have := (List.mem_filter.mp hmf).2
      simp at this
  · rw [h2]
    exact hmem

/-- C5 witness: the spec's success scenario — staging
`dataset/20250101_000000` promoted to `dataset/20250101_000512`. -/
theorem C5_witness :
    (("dataset" ++ "/" ++ "20250101_000512") ∈ applyFsOps
        ["dataset/20250101_000000"]
        (generateOutcome "dataset" "20250101_000000" "20250101_000512"
          true true (.ok ⟨some 0⟩)).1
    ∧ ("dataset" ++ "/" ++ "20250101_000000") ∉ applyFsOps
        ["dataset/20250101_000000"]
        (generateOutcome "dataset" "20250101_000000" "20250101_000512"
          true true (.ok ⟨some 0⟩)).1
    ∧ (generateOutcome "dataset" "20250101_000000" "20250101_000512"
          true true (.ok ⟨some 0⟩)).2
        = [("dataset:version",
            .obj [("version", .str "20250101_000512")])])
    ∧ (applyFsOps ["dataset/20250101_000000"]
        (generateOutcome "dataset" "20250101_000000" "20250101_000512"
          false true (.ok ⟨some 0⟩)).1
          = ["dataset/20250101_000000"]
    ∧ ("dataset" ++ "/" ++ "20250101_000000") ∈ applyFsOps
        ["dataset/20250101_000000"]
        (generateOutcome "dataset" "20250101_000000" "20250101_000512"
          false true (.ok ⟨some 0⟩)).1
    ∧ (generateOutcome "dataset" "20250101_000000" "20250101_000512"
          false true (.ok ⟨some 0⟩)).2
        = [("dataset:version",
            .obj [("version", .str "20250101_000000")])]) :=
  C5_promote_round_trip "dataset" "20250101_000000" "20250101_000512"
    true ["dataset/20250101_000000"] (by decide) (by decide)

/-- C6: on every non-success completion path of generate_dataset — a
reaped non-zero or signalled exit (including cancellation), a wait error,
and a spawn failure — the only filesystem operation is the recursive
removal of the staging directory (so it is never promoted), the emitted
events do not depend on whether that removal succeeded (its failure is
ignored, not escalated), and a successful removal leaves no staging
directory behind. -/
theorem C6_discard_on_failure (root ts finalTs m : String)
    (renameOk : Bool) (s : ExitStatus) (hs : s.success = false) :
    (∀ removeOk, (generateOutcome root ts finalTs renameOk removeOk
        (.ok s)).1 = [.removeDirAll (root ++ "/" ++ ts) removeOk])
    ∧ ((generateOutcome root ts finalTs renameOk true (.ok s)).2
        = (generateOutcome root ts finalTs renameOk false (.ok s)).2)
    ∧ (∀ removeOk e, (generateOutcome root ts finalTs renameOk removeOk
        (.error e)).1 = [.removeDirAll (root ++ "/" ++ ts) removeOk])
    ∧ (∀ e, (generateOutcome root ts finalTs renameOk true (.error e)).2
        = (generateOutcome root ts finalTs renameOk false (.error e)).2)
    ∧ (∀ removeOk, (runGenerate root ts finalTs renameOk removeOk
        (.err m)).1 = [.removeDirAll (root ++ "/" ++ ts) removeOk])
    ∧ ((runGenerate root ts finalTs renameOk true (.err m)).2
        = (runGenerate root ts finalTs renameOk false (.err m)).2)
    ∧ (∀ fs : List String, (root ++ "/" ++ ts) ∉ applyFsOps fs
        [FsOp.removeDirAll (root ++ "/" ++ ts) true]) := by
  refine ⟨?_, ?_, fun _ _ => rfl, fun _ => rfl, fun _ => rfl, rfl, ?_⟩
  · intro removeOk
    simp only [generateOutcome, hs, Bool.false_eq_true, if_false]
  · simp only [generateOutcome, hs, Bool.false_eq_true, if_false]
  · intro fs h
    have := (List.mem_filter.mp h).2
    simp at this

/-- C6 witness: the cancellation exit (code 143) with both removal
outcomes, plus a spawn failure. -/
theorem C6_witness :
    ((generateOutcome "dataset" "20250101_000000" "20250101_000512" true
        false (.ok ⟨some 143⟩)).1
      = [.removeDirAll ("dataset" ++ "/" ++ "20250101_000000") false])
    ∧ ((generateOutcome "dataset" "20250101_000000" "20250101_000512" true
        true (.ok ⟨some 143⟩)).2
      = (generateOutcome "dataset" "20250101_000000" "20250101_000512" true
        false (.ok ⟨some 143⟩)).2)
    ∧ ("dataset" ++ "/" ++ "20250101_000000") ∉ applyFsOps
        ["dataset/20250101_000000"]
        [FsOp.removeDirAll ("dataset" ++ "/" ++ "20250101_000000") true] := by
  have h := C6_discard_on_failure "dataset" "20250101_000000"
    "20250101_000512" "spawn failed" true ⟨some 143⟩ (by decide)
  exact ⟨h.1 false, h.2.1, h.2.2.2.2.2.2 ["dataset/20250101_000000"]⟩

/-- If a list contains an entry whose version is maximal (every other
member's version is equal to it or strictly below it), the descending
sort puts that version at the head. -/
theorem sortByVersionDesc_max_head (l : List DatasetVersionInfo)
    (x : DatasetVersionInfo) (hx : x ∈ l)
    (hmax : ∀ y ∈ l, y.version = x.version
      ∨ rustStrLt y.version x.version = true) :
    (sortByVersionDesc l).head?.map DatasetVersionInfo.version
      = some x.version := by
  have hmem : x ∈ sortByVersionDesc l := (sortByVersionDesc_mem l x).mpr hx
  have hpw := sortByVersionDesc_pairwise l
  cases hsort : sortByVersionDesc l with
  | nil =>
    rw [hsort] at hmem
    cases hmem
  | cons h t =>
    rw [hsort] at hmem hpw
    have hh : h ∈ l :=
      (sortByVersionDesc_mem l h).mp (by rw [hsort]; exact List.mem_cons_self h t)
    rcases hmax h hh with heq | hlt
    · simp [heq]
    · rcases List.mem_cons.mp hmem with rfl | hmemt
      · rw [rustStrLt_irrefl] at hlt
        cases hlt
      · have hd : VersionDesc h x := (List.pairwise_cons.mp hpw).1 x hmemt
        rw [VersionDesc, hlt] at hd
        cases hd

/-- C8 counterexample: a dataset root holding one timestamped version
directory plus the legacy flat layout. The listing sorts by version
string descending and "legacy" compares greater than any digit-initial
timestamp, so the synthetic "legacy" entry comes first — before the
timestamped entry, not after it as the claim states. -/
theorem C8_counterexample :
    (listDatasetVersions true "dataset"
        [{ name := "20260211_103031", isDir := true, hasTrain := true,
           trainCount := 2, validCount := 1, trainSize := 10,
           validSize := 5 }]
        { present := true, trainCount := 3, validCount := 1, trainSize := 9,
          validSize := 4, created := "2024-01-01 10:00" }).map
      DatasetVersionInfo.version
      = ["legacy", "20260211_103031"] := rfl

/-- C8 (amended): for a dataset root with the legacy flat layout, the
listing contains exactly one synthetic "legacy" entry, and — because the
sort is by version string descending and "legacy" is lexicographically
greater than the digit-initial timestamp identifiers — the legacy entry
appears first in the returned list, before all timestamped entries, not
after them. -/
theorem C8_legacy_entry (rootPath : String) (entries : List DirEntry)
    (legacy : LegacyData) (hp : legacy.present = true)
    (hnames : ∀ e ∈ entries, rustStrLt e.name "legacy" = true) :
    ((listDatasetVersions true rootPath entries legacy).countP
        (fun i => i.version == "legacy") = 1)
    ∧ ((listDatasetVersions true rootPath entries legacy).head?.map
        DatasetVersionInfo.version = some "legacy") := by
  simp only [listDatasetVersions, hp, Bool.not_true, Bool.false_eq_true,
    if_false, if_true]
  set legacyItem : DatasetVersionInfo :=
    { version := "legacy", path := rootPath,
      trainCount := legacy.trainCount, validCount := legacy.validCount,
      trainSize := legacy.trainSize, validSize := legacy.validSize,
      created := legacy.created } with hleg
  set dirV : List DatasetVersionInfo :=
    (entries.filter fun e => e.isDir && e.hasTrain).map fun e =>
      { version := e.name, path := rootPath ++ "/" ++ e.name,
        trainCount := e.trainCount, validCount := e.validCount,
        trainSize := e.trainSize, validSize := e.validSize,
        created := parseTimestampDisplay e.name } with hdirV
  have hdmem : ∀ y ∈ dirV, rustStrLt y.version "legacy" = true := by
    intro y hy
    rw [hdirV] at hy
    obtain ⟨e, he, rfl⟩ := List.mem_map.mp hy
    exact hnames e (List.mem_filter.mp he).1
  constructor
  · rw [sortByVersionDesc_countP]
    rw [List.countP_append]
    have hz : dirV.countP (fun i => i.version == "legacy") = 0 := by
      rw [List.countP_eq_zero]
      intro y hy
      have := rustStrLt_ne _ _ (hdmem y hy)
      simp [this]
    rw [hz]
    simp [hleg]
  · have := sortByVersionDesc_max_head (dirV ++ [legacyItem]) legacyItem
      (by simp) ?_
    · simpa [hleg] using this
    · intro y hy
      rcases List.mem_append.mp hy with hyd | hyl
      · right
        simpa [hleg] using hdmem y hyd
      · left
        rw [List.mem_singleton.mp hyl]

/-- C8 witness: one timestamped directory plus the legacy layout —
exactly one legacy entry and it sorts first. -/
theorem C8_witness :
    ((listDatasetVersions true "dataset"
        [{ name := "20260211_103031", isDir := true, hasTrain := true,
           trainCount := 2, validCount := 1, trainSize := 10,
           validSize := 5 }]
        { present := true, trainCount := 3, validCount := 1, trainSize := 9,
          validSize := 4, created := "2024-01-01 10:00" }).countP
        (fun i => i.version == "legacy") = 1)
    ∧ ((listDatasetVersions true "dataset"
        [{ name := "20260211_103031", isDir := true, hasTrain := true,
           trainCount := 2, validCount := 1, trainSize := 10,
           validSize := 5 }]
        { present := true, trainCount := 3, validCount := 1, trainSize := 9,
          validSize := 4, created := "2024-01-01 10:00" }).head?.map
        DatasetVersionInfo.version = some "legacy") :=
  C8_legacy_entry "dataset"
    [{ name := "20260211_103031", isDir := true, hasTrain := true,
       trainCount := 2, validCount := 1, trainSize := 10, validSize := 5 }]
    { present := true, trainCount := 3, validCount := 1, trainSize := 9,
      validSize := 4, created := "2024-01-01 10:00" }
    rfl (by decide)

/-- C9: when an export run exits non-zero, the supervisor synthesizes a
generic `export:error` only if no stdout line parsed to an error-typed
event; when the worker did self-report, the run's event stream is exactly
the forwarded stdout events with nothing appended. The synthesized
message is the fixed fallback when the collected stderr is empty, and
otherwise the last eight stderr lines joined with newlines. -/
theorem C9_export_error_suppression (projectId : String)
    (ss : List String) (lines : List JLine) (l : JLine) (e : Json)
    (s : ExitStatus) (hs : s.success = false)
    (hmem : l ∈ lines) (hp : l.parsed = some e)
    (ht : typeField e = "error")
    (hnn : "\n".intercalate ss ≠ "") (hlast : ss.getLast? ≠ some "") :
    pyEmittedError lines = true
    ∧ runExport projectId (.ok lines ss (.ok s))
        = lines.flatMap (exportLine projectId)
    ∧ exportOutcome projectId false ss (.ok s)
        = [("export:error",
            .obj [("message", .str (exportErrMsg ss)),
                  ("project_id", .str projectId)])]
    ∧ exportErrMsg [] = "Export process failed (no details available)"
    ∧ exportErrMsg ss = "\n".intercalate ((ss.reverse.take 8).reverse) := by
  have h1 : pyEmittedError lines = true := by
    rw [pyEmittedError, List.any_eq_true]
    refine ⟨l, hmem, ?_⟩
    rw [hp]
    show (typeField e == "error") = true
    rw [ht]
    rfl
  have h2 : exportOutcome projectId true ss (.ok s) = [] := by
    simp [exportOutcome]
  refine ⟨h1, ?_, ?_, rfl, ?_⟩
  · show lines.flatMap (exportLine projectId)
        ++ exportOutcome projectId (pyEmittedError lines) ss (.ok s)
      = lines.flatMap (exportLine projectId)
    rw [h1, h2, List.append_nil]
  · simp [exportOutcome, hs]
  · have hre : relines ss = ss := by
      rw [relines, if_neg hlast]
    rw [exportErrMsg]
    simp only [hre]
    rw [if_neg hnn]

/-- C9 witness: the spec's self-report scenario — the worker writes an
error-typed event and exits 7; the supervisor forwards it (with the
project id injected) and appends nothing. The message shape is checked on
a two-line stderr buffer. -/
theorem C9_witness :
    pyEmittedError
        [⟨"\x7b\"type\":\"error\",\"message\":\"disk full\"\x7d",
          some (.obj [("type", .str "error"),
                      ("message", .str "disk full")])⟩] = true
    ∧ runExport "p1"
        (.ok [⟨"\x7b\"type\":\"error\",\"message\":\"disk full\"\x7d",
               some (.obj [("type", .str "error"),
                           ("message", .str "disk full")])⟩]
          ["trace line", "boom"] (.ok ⟨some 7⟩))
        = [⟨"\x7b\"type\":\"error\",\"message\":\"disk full\"\x7d",
            some (.obj [("type", .str "error"),
                        ("message", .str "disk full")])⟩].flatMap
            (exportLine "p1")
    ∧ exportOutcome "p1" false ["trace line", "boom"] (.ok ⟨some 7⟩)
        = [("export:error",
            .obj [("message", .str (exportErrMsg ["trace line", "boom"])),
                  ("project_id", .str "p1")])]
    ∧ exportErrMsg [] = "Export process failed (no details available)"
    ∧ exportErrMsg ["trace line", "boom"]
        = "\n".intercalate ((["trace line", "boom"].reverse.take 8).reverse) :=
  C9_export_error_suppression "p1" ["trace line", "boom"]
    [⟨"\x7b\"type\":\"error\",\"message\":\"disk full\"\x7d",
      some (.obj [("type", .str "error"), ("message", .str "disk full")])⟩]
    ⟨"\x7b\"type\":\"error\",\"message\":\"disk full\"\x7d",
      some (.obj [("type", .str "error"), ("message", .str "disk full")])⟩
    (.obj [("type", .str "error"), ("message", .str "disk full")])
    ⟨some 7⟩ (by decide) (List.mem_singleton.mpr rfl) rfl rfl
    (by decide) (by decide)

/-- C10: for an explicitly named non-legacy version, get_dataset_preview
reads `root/<version>/train.jsonl`; when that file does not exist it
returns Ok with an empty list (not an error), and when it reads
successfully it returns the parsed values of the parseable lines among
the first 50 lines — unparseable lines are skipped but still consume the
50-line window. -/
theorem C10_preview_named (rootPath v : String) (legacyExists : Bool)
    (latestTrain : Option String) (trainExists : String → Bool)
    (readFile : String → Except String (List JLine)) (ls : List JLine)
    (hv : v ≠ "legacy") :
    (trainExists (rootPath ++ "/" ++ v ++ "/train.jsonl") = false →
      getDatasetPreview rootPath (some v) legacyExists latestTrain
        trainExists readFile = .ok [])
    ∧ (trainExists (rootPath ++ "/" ++ v ++ "/train.jsonl") = true →
      readFile (rootPath ++ "/" ++ v ++ "/train.jsonl") = .ok ls →
      getDatasetPreview rootPath (some v) legacyExists latestTrain
        trainExists readFile
        = .ok ((ls.take 50).filterMap JLine.parsed)) := by
  have hpath : previewPath rootPath (some v) legacyExists latestTrain
      = some (rootPath ++ "/" ++ v ++ "/train.jsonl") := by
    simp [previewPath, hv]
  constructor
  · intro h
    simp [getDatasetPreview, hpath, h]
  · intro h hr
    simp only [getDatasetPreview, hpath, h, Bool.not_true,
      Bool.false_eq_true, if_false, hr]
    rw [previewLoop_eq ls 0]

/-- C10 witness: a version directory whose train.jsonl holds one
parseable and one unparseable line, and a missing train.jsonl. -/
theorem C10_witness :
    (getDatasetPreview "dataset" (some "20260211_103031") false none
        (fun _ => false) (fun _ => .ok []) = .ok [])
    ∧ (getDatasetPreview "dataset" (some "20260211_103031") false none
        (fun _ => true)
        (fun _ => .ok
          [⟨"\x7b\"instruction\":\"q\"\x7d",
            some (.obj [("instruction", .str "q")])⟩,
           ⟨"not json", none⟩])
        = .ok [.obj [("instruction", .str "q")]]) := by
  constructor
  · exact (C10_preview_named "dataset" "20260211_103031" false none
      (fun _ => false) (fun _ => .ok []) [] (by decide)).1 rfl
  · exact (C10_preview_named "dataset" "20260211_103031" false none
      (fun _ => true)
      (fun _ => .ok
        [⟨"\x7b\"instruction\":\"q\"\x7d",
          some (.obj [("instruction", .str "q")])⟩,
         ⟨"not json", none⟩])
      [⟨"\x7b\"instruction\":\"q\"\x7d",
        some (.obj [("instruction", .str "q")])⟩,
       ⟨"not json", none⟩] (by decide)).2 rfl rfl
